import Mathlib

/-
Verification of the CLR optimizer library (clr_optimizers.py): a family of
Keras-style first-order optimizers (SGD, RMSprop, Adagrad, Adadelta, Adam,
Adamax, Nadam) augmented with a cyclical learning-rate (CLR) schedule.

Shallow embedding conventions:
* Scalars and tensor elements are modelled as rationals where the source uses
  only field operations, floor, abs, max and integer powers (the decay and CLR
  learning-rate pipeline, the op-emission skeleton of `get_updates`, configs),
  and as reals where square roots appear (gradient norm clipping, the Adadelta
  per-parameter update formulas).
* `get_updates` builds a symbolic list of backend update operations; the
  embedding records, in emission order, which state variable each operation
  writes (`UpdOp`), carrying the numeric payload for the `current_lr` write,
  whose value is fully determined by the rational decay/CLR pipeline.  The
  numeric payloads of accumulator/parameter writes involve square roots and
  are modelled separately over the reals (`Adadelta.paramStep`).
* Fallible Python code (constructors validating keyword arguments,
  `set_weights` validating shapes) is modelled with `Except`: an error result
  means the exception is raised before any state is produced or mutated.
* `iterations` is held in a float variable but only ever takes nonnegative
  integer values (initialized to 0, incremented by 1); it is modelled as ℕ.
-/

namespace CLR

/-! ### Gradient clipping (`clip_norm`, `Optimizer.get_gradients`) -/

/-- `clip_norm(g, c, n)`: if `c > 0`, replace `g` by `g * c / n` when
`n >= c`, else leave `g` unchanged. -/
noncomputable def clip_norm (g c n : ℝ) : ℝ :=
  if c > 0 then (if n ≥ c then g * c / n else g) else g

/-- The joint gradient norm `K.sqrt(sum([K.sum(K.square(g)) for g in grads]))`
for a list of scalar gradients. -/
noncomputable def gradNorm (grads : List ℝ) : ℝ :=
  Real.sqrt ((grads.map (fun g => g ^ 2)).sum)

/-- The clipping part of `Optimizer.get_gradients`: the raw gradients are
produced by the differentiation engine and arrive here as `grads`; the
`hasattr` checks on `clipnorm` / `clipvalue` are modelled by `Option`. -/
noncomputable def get_gradients (clipnorm clipvalue : Option ℝ) (grads : List ℝ) :
    List ℝ :=
  let grads :=
    match clipnorm with
    | some c =>
      if c > 0 then
        let norm := gradNorm grads
        grads.map (fun g => clip_norm g c norm)
      else grads
    | none => grads
  match clipvalue with
  | some v =>
    if v > 0 then grads.map (fun g => min (max g (-v)) v) else grads
  | none => grads

/-! ### Base configuration (`Optimizer.__init__`, `get_config`) -/

/-- A plain config value: Python scalars in the config dicts are floats or
booleans. -/
inductive CVal where
  | num (q : ℚ)
  | bool (b : Bool)
deriving DecidableEq

/-- The attributes set on the base class by `Optimizer.__init__` from its
recognized keyword arguments. -/
structure OptBase where
  clipnorm : Option CVal
  clipvalue : Option CVal
deriving DecidableEq

def allowedKwargs : List String := ["clipnorm", "clipvalue"]

/-- The validation loop of `Optimizer.__init__`: raises `TypeError` at the
first keyword not in `allowed_kwargs`. -/
def checkKwargs : List String → Except String Unit
  | [] => Except.ok ()
  | k :: rest =>
    if k ∈ allowedKwargs then checkKwargs rest
    else Except.error ("Unexpected keyword argument passed to optimizer: " ++ k)

/-- `Optimizer.__init__(**kwargs)`: validates the keywords, then stores them
as attributes.  An error result models the `TypeError` raised before any
state exists. -/
def Optimizer.init (kwargs : List (String × CVal)) : Except String OptBase :=
  match checkKwargs (kwargs.map Prod.fst) with
  | Except.error e => Except.error e
  | Except.ok _ =>
    Except.ok { clipnorm := kwargs.lookup ("clipnorm"),
                clipvalue := kwargs.lookup ("clipvalue") }

/-- `Optimizer.get_config`: the optional `clipnorm` / `clipvalue` entries. -/
def Optimizer.get_config (b : OptBase) : List (String × CVal) :=
  (match b.clipnorm with
   | some v => [(("clipnorm" : String), v)]
   | none => []) ++
  (match b.clipvalue with
   | some v => [(("clipvalue" : String), v)]
   | none => [])

/-- Read a numeric entry of a config dict, with the constructor default used
when the key is absent (Python keyword-argument defaulting). -/
def getNum (config : List (String × CVal)) (k : String) (dflt : ℚ) : ℚ :=
  match config.lookup k with
  | some (CVal.num q) => q
  | _ => dflt

/-- Read a boolean entry of a config dict, with a default. -/
def getBool (config : List (String × CVal)) (k : String) (dflt : Bool) : Bool :=
  match config.lookup k with
  | some (CVal.bool b) => b
  | _ => dflt

/-! ### The CLR schedule -/

/-- The `clr` dict: `{mode, step_size, max_lr, gamma}` (`gamma` is only read
in `exp_range` mode). -/
structure CLRState where
  mode : String
  step_size : ℚ
  max_lr : ℚ
  gamma : ℚ
deriving DecidableEq

/-- The CLR learning-rate modulation block, textually identical in all seven
`get_updates` bodies.  `it` is the pre-increment counter value.  An
unrecognized mode leaves `lr` unchanged (no `else` branch in the source). -/
def clrAdjust (c : CLRState) (it : ℕ) (lr : ℚ) : ℚ :=
  if c.mode = "triangular" then
    let cycle : ℤ := ⌊1 + (it : ℚ) / (2 * c.step_size)⌋
    let x : ℚ := |(it : ℚ) / c.step_size - 2 * (cycle : ℚ) + 1|
    lr + (c.max_lr - lr) * max 0 (1 - x)
  else if c.mode = "triangular2" then
    let cycle : ℤ := ⌊1 + (it : ℚ) / (2 * c.step_size)⌋
    let x : ℚ := |(it : ℚ) / c.step_size - 2 * (cycle : ℚ) + 1|
    lr + (c.max_lr - lr) * max 0 (1 - x) / (2 : ℚ) ^ (cycle - 1)
  else if c.mode = "exp_range" then
    let cycle : ℤ := ⌊1 + (it : ℚ) / (2 * c.step_size)⌋
    let x : ℚ := |(it : ℚ) / c.step_size - 2 * (cycle : ℚ) + 1|
    lr + (c.max_lr - lr) * max 0 (1 - x) * c.gamma ^ it
  else lr

/-! ### Emitted update operations and the weights list -/

/-- One emitted backend update operation, identified by the state variable it
writes.  `addIter` is `K.update_add(self.iterations, 1)`;
`setCurrentLr v` is `K.update(self.current_lr, lr)` with the computed rate
`v`; `setAccA i` / `setAccB i` are writes to the `i`-th accumulator of the
variant's first / second accumulator group (moments `m`, accumulators `a`,
second moments `v`, infinity norms `u`, delta-accumulators `d_a`);
`setParam i` is the write of the `i`-th parameter; `setMSchedule` is Nadam's
`m_schedule` write. -/
inductive UpdOp where
  | addIter
  | setCurrentLr (v : ℚ)
  | setAccA (i : ℕ)
  | setAccB (i : ℕ)
  | setMSchedule
  | setParam (i : ℕ)
deriving DecidableEq

/-- A reference to one entry of `self.weights`: the `iterations` counter or
an accumulator of the first / second group. -/
inductive WRef where
  | iter
  | accA (i : ℕ)
  | accB (i : ℕ)
deriving DecidableEq

/-- Number of `K.update_add(self.iterations, 1)` operations in an emitted
update list: the net increment applied to the step counter. -/
def countAddIter (ops : List UpdOp) : ℕ :=
  ops.countP (fun op => match op with | UpdOp.addIter => true | _ => false)

/-- The value written to `current_lr` by an emitted update list (the payload
of the first `setCurrentLr` operation). -/
def currentLrOf (ops : List UpdOp) : Option ℚ :=
  ops.findSome? (fun op => match op with | UpdOp.setCurrentLr v => some v | _ => none)

/-- The operations emitted by a per-parameter loop over `n` zipped
parameter/gradient pairs, `emit i` being the body for index `i`. -/
def paramOps (emit : ℕ → List UpdOp) (n : ℕ) : List UpdOp :=
  (List.range n).flatMap emit

/-! ### SGD -/

structure SGDState where
  base : OptBase
  iterations : ℕ
  lr : ℚ
  momentum : ℚ
  decay : ℚ
  initial_decay : ℚ
  nesterov : Bool
  clr : Option CLRState
  current_lr : ℚ
deriving DecidableEq

/-- `SGD.__init__`: the base keyword check runs first (raising before any
variable is created); then the variables are created, `initial_decay`
capturing the constructor's `decay` argument. -/
def SGD.init (lr momentum decay : ℚ) (nesterov : Bool) (clr : Option CLRState)
    (kwargs : List (String × CVal)) : Except String SGDState :=
  match Optimizer.init kwargs with
  | Except.error e => Except.error e
  | Except.ok base =>
    Except.ok { base := base, iterations := 0, lr := lr, momentum := momentum,
                decay := decay, initial_decay := decay, nesterov := nesterov,
                clr := clr, current_lr := 0 }

/-- The op-emission skeleton of `SGD.get_updates`: the decay branch (guarded
by `initial_decay > 0`) scales `lr` and appends a counter increment; the CLR
branch (guarded by `clr != None`) modulates `lr` and appends a counter
increment when `initial_decay == 0`; then `current_lr` is written, and the
per-parameter loop writes each moment and parameter in order.
`self.weights` is set to `[iterations] + moments`. -/
def SGD.get_updates (s : SGDState) (params grads : List ℚ) :
    List UpdOp × List WRef :=
  let decayOps : List UpdOp := if s.initial_decay > 0 then [UpdOp.addIter] else []
  let lr1 : ℚ :=
    if s.initial_decay > 0 then
      s.lr * (1 / (1 + s.decay * (s.iterations : ℚ)))
    else s.lr
  let clrOps : List UpdOp :=
    match s.clr with
    | none => []
    | some _ => if s.initial_decay = 0 then [UpdOp.addIter] else []
  let lr2 : ℚ :=
    match s.clr with
    | none => lr1
    | some c => clrAdjust c s.iterations lr1
  let n := min params.length grads.length
  let ops := decayOps ++ clrOps ++ [UpdOp.setCurrentLr lr2] ++
    paramOps (fun i => [UpdOp.setAccA i, UpdOp.setParam i]) n
  let weights := WRef.iter :: (List.range params.length).map WRef.accA
  (ops, weights)

/-- `SGD.get_config`: base entries first, then the variant entries in source
order, including the live `iterations` and `current_lr` values. -/
def SGD.get_config (s : SGDState) : List (String × CVal) :=
  Optimizer.get_config s.base ++
  [(("lr" : String), CVal.num s.lr),
   (("momentum" : String), CVal.num s.momentum),
   (("decay" : String), CVal.num s.decay),
   (("nesterov" : String), CVal.bool s.nesterov),
   (("iterations" : String), CVal.num (s.iterations : ℚ)),
   (("current_lr" : String), CVal.num s.current_lr)]

/-- `Optimizer.from_config` for SGD: `cls(**config)` binds the recognized
constructor parameters by name (no `get_config` ever exports `clr`, so `clr`
takes its default `None`) and passes every remaining entry as an extra
keyword argument to the constructor. -/
def SGD.from_config (config : List (String × CVal)) : Except String SGDState :=
  SGD.init (getNum config ("lr") (1/100)) (getNum config ("momentum") 0)
    (getNum config ("decay") 0) (getBool config ("nesterov") false) none
    (config.filter (fun kv =>
      !(["lr", "momentum", "decay", "nesterov", "clr"].contains kv.1)))

/-! ### RMSprop -/

structure RMSpropState where
  base : OptBase
  lr : ℚ
  rho : ℚ
  epsilon : ℚ
  decay : ℚ
  initial_decay : ℚ
  iterations : ℕ
  clr : Option CLRState
  current_lr : ℚ
deriving DecidableEq

/-- `RMSprop.__init__`. -/
def RMSprop.init (lr rho epsilon decay : ℚ) (clr : Option CLRState)
    (kwargs : List (String × CVal)) : Except String RMSpropState :=
  match Optimizer.init kwargs with
  | Except.error e => Except.error e
  | Except.ok base =>
    Except.ok { base := base, lr := lr, rho := rho, epsilon := epsilon,
                decay := decay, initial_decay := decay, iterations := 0,
                clr := clr, current_lr := 0 }

/-- The op-emission skeleton of `RMSprop.get_updates`.  `self.weights` is
set to the accumulator list only (no counter entry). -/
def RMSprop.get_updates (s : RMSpropState) (params grads : List ℚ) :
    List UpdOp × List WRef :=
  let weights := (List.range params.length).map WRef.accA
  let decayOps : List UpdOp := if s.initial_decay > 0 then [UpdOp.addIter] else []
  let lr1 : ℚ :=
    if s.initial_decay > 0 then
      s.lr * (1 / (1 + s.decay * (s.iterations : ℚ)))
    else s.lr
  let clrOps : List UpdOp :=
    match s.clr with
    | none => []
    | some _ => if s.initial_decay = 0 then [UpdOp.addIter] else []
  let lr2 : ℚ :=
    match s.clr with
    | none => lr1
    | some c => clrAdjust c s.iterations lr1
  let n := min params.length grads.length
  let ops := decayOps ++ clrOps ++ [UpdOp.setCurrentLr lr2] ++
    paramOps (fun i => [UpdOp.setAccA i, UpdOp.setParam i]) n
  (ops, weights)

/-- `RMSprop.get_config`. -/
def RMSprop.get_config (s : RMSpropState) : List (String × CVal) :=
  Optimizer.get_config s.base ++
  [(("lr" : String), CVal.num s.lr),
   (("rho" : String), CVal.num s.rho),
   (("decay" : String), CVal.num s.decay),
   (("epsilon" : String), CVal.num s.epsilon),
   (("iterations" : String), CVal.num (s.iterations : ℚ)),
   (("current_lr" : String), CVal.num s.current_lr)]

/-- `Optimizer.from_config` for RMSprop. -/
def RMSprop.from_config (config : List (String × CVal)) :
    Except String RMSpropState :=
  RMSprop.init (getNum config ("lr") (1/1000)) (getNum config ("rho") (9/10))
    (getNum config ("epsilon") (1/100000000)) (getNum config ("decay") 0) none
    (config.filter (fun kv =>
      !(["lr", "rho", "epsilon", "decay", "clr"].contains kv.1)))

/-! ### Adagrad -/

structure AdagradState where
  base : OptBase
  lr : ℚ
  epsilon : ℚ
  decay : ℚ
  initial_decay : ℚ
  iterations : ℕ
  clr : Option CLRState
  current_lr : ℚ
deriving DecidableEq

/-- `Adagrad.__init__`. -/
def Adagrad.init (lr epsilon decay : ℚ) (clr : Option CLRState)
    (kwargs : List (String × CVal)) : Except String AdagradState :=
  match Optimizer.init kwargs with
  | Except.error e => Except.error e
  | Except.ok base =>
    Except.ok { base := base, lr := lr, epsilon := epsilon, decay := decay,
                initial_decay := decay, iterations := 0, clr := clr,
                current_lr := 0 }

/-- The op-emission skeleton of `Adagrad.get_updates`.  `self.weights` is
set to the accumulator list only (no counter entry). -/
def Adagrad.get_updates (s : AdagradState) (params grads : List ℚ) :
    List UpdOp × List WRef :=
  let weights := (List.range params.length).map WRef.accA
  let decayOps : List UpdOp := if s.initial_decay > 0 then [UpdOp.addIter] else []
  let lr1 : ℚ :=
    if s.initial_decay > 0 then
      s.lr * (1 / (1 + s.decay * (s.iterations : ℚ)))
    else s.lr
  let clrOps : List UpdOp :=
    match s.clr with
    | none => []
    | some _ => if s.initial_decay = 0 then [UpdOp.addIter] else []
  let lr2 : ℚ :=
    match s.clr with
    | none => lr1
    | some c => clrAdjust c s.iterations lr1
  let n := min params.length grads.length
  let ops := decayOps ++ clrOps ++ [UpdOp.setCurrentLr lr2] ++
    paramOps (fun i => [UpdOp.setAccA i, UpdOp.setParam i]) n
  (ops, weights)

/-- `Adagrad.get_config`. -/
def Adagrad.get_config (s : AdagradState) : List (String × CVal) :=
  Optimizer.get_config s.base ++
  [(("lr" : String), CVal.num s.lr),
   (("decay" : String), CVal.num s.decay),
   (("epsilon" : String), CVal.num s.epsilon),
   (("iterations" : String), CVal.num (s.iterations : ℚ)),
   (("current_lr" : String), CVal.num s.current_lr)]

/-- `Optimizer.from_config` for Adagrad. -/
def Adagrad.from_config (config : List (String × CVal)) :
    Except String AdagradState :=
  Adagrad.init (getNum config ("lr") (1/100))
    (getNum config ("epsilon") (1/100000000)) (getNum config ("decay") 0) none
    (config.filter (fun kv =>
      !(["lr", "epsilon", "decay", "clr"].contains kv.1)))

/-! ### Adadelta -/

structure AdadeltaState where
  base : OptBase
  lr : ℚ
  rho : ℚ
  epsilon : ℚ
  decay : ℚ
  initial_decay : ℚ
  iterations : ℕ
  clr : Option CLRState
  current_lr : ℚ
deriving DecidableEq

/-- `Adadelta.__init__`. -/
def Adadelta.init (lr rho epsilon decay : ℚ) (clr : Option CLRState)
    (kwargs : List (String × CVal)) : Except String AdadeltaState :=
  match Optimizer.init kwargs with
  | Except.error e => Except.error e
  | Except.ok base =>
    Except.ok { base := base, lr := lr, rho := rho, epsilon := epsilon,
                decay := decay, initial_decay := decay, iterations := 0,
                clr := clr, current_lr := 0 }

/-- The op-emission skeleton of `Adadelta.get_updates`.  `self.weights` is
set to `accumulators + delta_accumulators` (no counter entry); per parameter
the loop writes the accumulator, then the parameter, then the
delta-accumulator. -/
def Adadelta.get_updates (s : AdadeltaState) (params grads : List ℚ) :
    List UpdOp × List WRef :=
  let weights := (List.range params.length).map WRef.accA ++
    (List.range params.length).map WRef.accB
  let decayOps : List UpdOp := if s.initial_decay > 0 then [UpdOp.addIter] else []
  let lr1 : ℚ :=
    if s.initial_decay > 0 then
      s.lr * (1 / (1 + s.decay * (s.iterations : ℚ)))
    else s.lr
  let clrOps : List UpdOp :=
    match s.clr with
    | none => []
    | some _ => if s.initial_decay = 0 then [UpdOp.addIter] else []
  let lr2 : ℚ :=
    match s.clr with
    | none => lr1
    | some c => clrAdjust c s.iterations lr1
  let n := min params.length grads.length
  let ops := decayOps ++ clrOps ++ [UpdOp.setCurrentLr lr2] ++
    paramOps (fun i => [UpdOp.setAccA i, UpdOp.setParam i, UpdOp.setAccB i]) n
  (ops, weights)

/-- `Adadelta.get_config`. -/
def Adadelta.get_config (s : AdadeltaState) : List (String × CVal) :=
  Optimizer.get_config s.base ++
  [(("lr" : String), CVal.num s.lr),
   (("rho" : String), CVal.num s.rho),
   (("decay" : String), CVal.num s.decay),
   (("epsilon" : String), CVal.num s.epsilon),
   (("iterations" : String), CVal.num (s.iterations : ℚ)),
   (("current_lr" : String), CVal.num s.current_lr)]

/-- `Optimizer.from_config` for Adadelta. -/
def Adadelta.from_config (config : List (String × CVal)) :
    Except String AdadeltaState :=
  Adadelta.init (getNum config ("lr") 1) (getNum config ("rho") (19/20))
    (getNum config ("epsilon") (1/100000000)) (getNum config ("decay") 0) none
    (config.filter (fun kv =>
      !(["lr", "rho", "epsilon", "decay", "clr"].contains kv.1)))

/-! ### Adam -/

structure AdamState where
  base : OptBase
  iterations : ℕ
  lr : ℚ
  beta_1 : ℚ
  beta_2 : ℚ
  epsilon : ℚ
  decay : ℚ
  initial_decay : ℚ
  clr : Option CLRState
  current_lr : ℚ
deriving DecidableEq

/-- `Adam.__init__`. -/
def Adam.init (lr beta_1 beta_2 epsilon decay : ℚ) (clr : Option CLRState)
    (kwargs : List (String × CVal)) : Except String AdamState :=
  match Optimizer.init kwargs with
  | Except.error e => Except.error e
  | Except.ok base =>
    Except.ok { base := base, iterations := 0, lr := lr, beta_1 := beta_1,
                beta_2 := beta_2, epsilon := epsilon, decay := decay,
                initial_decay := decay, clr := clr, current_lr := 0 }

/-- The op-emission skeleton of `Adam.get_updates`: the counter increment is
emitted unconditionally at the very start; the decay branch only scales `lr`;
the CLR branch has no increment; `self.weights = [iterations] + ms + vs`;
per parameter the loop writes `m`, then `v`, then the parameter. -/
def Adam.get_updates (s : AdamState) (params grads : List ℚ) :
    List UpdOp × List WRef :=
  let lr1 : ℚ :=
    if s.initial_decay > 0 then
      s.lr * (1 / (1 + s.decay * (s.iterations : ℚ)))
    else s.lr
  let lr2 : ℚ :=
    match s.clr with
    | none => lr1
    | some c => clrAdjust c s.iterations lr1
  let n := min params.length grads.length
  let ops := [UpdOp.addIter] ++ [UpdOp.setCurrentLr lr2] ++
    paramOps (fun i => [UpdOp.setAccA i, UpdOp.setAccB i, UpdOp.setParam i]) n
  let weights := WRef.iter :: ((List.range params.length).map WRef.accA ++
    (List.range params.length).map WRef.accB)
  (ops, weights)

/-- `Adam.get_config`. -/
def Adam.get_config (s : AdamState) : List (String × CVal) :=
  Optimizer.get_config s.base ++
  [(("lr" : String), CVal.num s.lr),
   (("beta_1" : String), CVal.num s.beta_1),
   (("beta_2" : String), CVal.num s.beta_2),
   (("decay" : String), CVal.num s.decay),
   (("epsilon" : String), CVal.num s.epsilon),
   (("iterations" : String), CVal.num (s.iterations : ℚ)),
   (("current_lr" : String), CVal.num s.current_lr)]

/-- `Optimizer.from_config` for Adam. -/
def Adam.from_config (config : List (String × CVal)) :
    Except String AdamState :=
  Adam.init (getNum config ("lr") (1/1000)) (getNum config ("beta_1") (9/10))
    (getNum config ("beta_2") (999/1000))
    (getNum config ("epsilon") (1/100000000)) (getNum config ("decay") 0) none
    (config.filter (fun kv =>
      !(["lr", "beta_1", "beta_2", "epsilon", "decay", "clr"].contains kv.1)))

/-! ### Adamax -/

structure AdamaxState where
  base : OptBase
  iterations : ℕ
  lr : ℚ
  beta_1 : ℚ
  beta_2 : ℚ
  epsilon : ℚ
  decay : ℚ
  initial_decay : ℚ
  clr : Option CLRState
  current_lr : ℚ
deriving DecidableEq

/-- `Adamax.__init__`. -/
def Adamax.init (lr beta_1 beta_2 epsilon decay : ℚ) (clr : Option CLRState)
    (kwargs : List (String × CVal)) : Except String AdamaxState :=
  match Optimizer.init kwargs with
  | Except.error e => Except.error e
  | Except.ok base =>
    Except.ok { base := base, iterations := 0, lr := lr, beta_1 := beta_1,
                beta_2 := beta_2, epsilon := epsilon, decay := decay,
                initial_decay := decay, clr := clr, current_lr := 0 }

/-- The op-emission skeleton of `Adamax.get_updates`: same structure as
Adam's (unconditional leading increment, `[iterations] + ms + us` weights,
per-parameter writes `m`, `u`, parameter). -/
def Adamax.get_updates (s : AdamaxState) (params grads : List ℚ) :
    List UpdOp × List WRef :=
  let lr1 : ℚ :=
    if s.initial_decay > 0 then
      s.lr * (1 / (1 + s.decay * (s.iterations : ℚ)))
    else s.lr
  let lr2 : ℚ :=
    match s.clr with
    | none => lr1
    | some c => clrAdjust c s.iterations lr1
  let n := min params.length grads.length
  let ops := [UpdOp.addIter] ++ [UpdOp.setCurrentLr lr2] ++
    paramOps (fun i => [UpdOp.setAccA i, UpdOp.setAccB i, UpdOp.setParam i]) n
  let weights := WRef.iter :: ((List.range params.length).map WRef.accA ++
    (List.range params.length).map WRef.accB)
  (ops, weights)

/-- `Adamax.get_config`. -/
def Adamax.get_config (s : AdamaxState) : List (String × CVal) :=
  Optimizer.get_config s.base ++
  [(("lr" : String), CVal.num s.lr),
   (("beta_1" : String), CVal.num s.beta_1),
   (("beta_2" : String), CVal.num s.beta_2),
   (("decay" : String), CVal.num s.decay),
   (("epsilon" : String), CVal.num s.epsilon),
   (("iterations" : String), CVal.num (s.iterations : ℚ)),
   (("current_lr" : String), CVal.num s.current_lr)]

/-- `Optimizer.from_config` for Adamax. -/
def Adamax.from_config (config : List (String × CVal)) :
    Except String AdamaxState :=
  Adamax.init (getNum config ("lr") (1/500)) (getNum config ("beta_1") (9/10))
    (getNum config ("beta_2") (999/1000))
    (getNum config ("epsilon") (1/100000000)) (getNum config ("decay") 0) none
    (config.filter (fun kv =>
      !(["lr", "beta_1", "beta_2", "epsilon", "decay", "clr"].contains kv.1)))

/-! ### Nadam -/

structure NadamState where
  base : OptBase
  iterations : ℕ
  m_schedule : ℚ
  lr : ℚ
  beta_1 : ℚ
  beta_2 : ℚ
  epsilon : ℚ
  schedule_decay : ℚ
  clr : Option CLRState
  current_lr : ℚ
deriving DecidableEq

/-- `Nadam.__init__` (no `decay` option exists for this variant). -/
def Nadam.init (lr beta_1 beta_2 epsilon schedule_decay : ℚ)
    (clr : Option CLRState) (kwargs : List (String × CVal)) :
    Except String NadamState :=
  match Optimizer.init kwargs with
  | Except.error e => Except.error e
  | Except.ok base =>
    Except.ok { base := base, iterations := 0, m_schedule := 1, lr := lr,
                beta_1 := beta_1, beta_2 := beta_2, epsilon := epsilon,
                schedule_decay := schedule_decay, clr := clr, current_lr := 0 }

/-- The op-emission skeleton of `Nadam.get_updates`: unconditional leading
counter increment, no decay branch, CLR modulation, `current_lr` write, the
`m_schedule` write, then per-parameter writes `m`, `v`, parameter.
`self.weights = [iterations] + ms + vs` (no `m_schedule` entry). -/
def Nadam.get_updates (s : NadamState) (params grads : List ℚ) :
    List UpdOp × List WRef :=
  let lr2 : ℚ :=
    match s.clr with
    | none => s.lr
    | some c => clrAdjust c s.iterations s.lr
  let n := min params.length grads.length
  let ops := [UpdOp.addIter] ++ [UpdOp.setCurrentLr lr2] ++
    [UpdOp.setMSchedule] ++
    paramOps (fun i => [UpdOp.setAccA i, UpdOp.setAccB i, UpdOp.setParam i]) n
  let weights := WRef.iter :: ((List.range params.length).map WRef.accA ++
    (List.range params.length).map WRef.accB)
  (ops, weights)

/-- `Nadam.get_config`. -/
def Nadam.get_config (s : NadamState) : List (String × CVal) :=
  Optimizer.get_config s.base ++
  [(("lr" : String), CVal.num s.lr),
   (("beta_1" : String), CVal.num s.beta_1),
   (("beta_2" : String), CVal.num s.beta_2),
   (("epsilon" : String), CVal.num s.epsilon),
   (("schedule_decay" : String), CVal.num s.schedule_decay),
   (("iterations" : String), CVal.num (s.iterations : ℚ)),
   (("current_lr" : String), CVal.num s.current_lr)]

/-- `Optimizer.from_config` for Nadam. -/
def Nadam.from_config (config : List (String × CVal)) :
    Except String NadamState :=
  Nadam.init (getNum config ("lr") (1/500)) (getNum config ("beta_1") (9/10))
    (getNum config ("beta_2") (999/1000))
    (getNum config ("epsilon") (1/100000000))
    (getNum config ("schedule_decay") (1/250)) none
    (config.filter (fun kv =>
      !(["lr", "beta_1", "beta_2", "epsilon", "schedule_decay", "clr"].contains kv.1)))

/-! ### Weight snapshot / restore (`Optimizer.set_weights`) -/

/-- A backend variable / numpy array: its shape and (abstractly) its
contents.  Shape comparison is all `set_weights` inspects; the contents are
carried so that assignment is observable. -/
structure Tensor where
  shape : List ℕ
  val : ℤ
deriving DecidableEq

/-- The validation loop of `set_weights`: walk the zipped
`(param_value, param, weight)` triples in order, raising `ValueError` at the
first shape mismatch, otherwise collecting the assignment tuples.  (The
current value `pv` of a variable has the variable's own shape, so the pair
`(p, w)` carries all the information the loop uses.) -/
def buildTuples : List (Tensor × Tensor) → Except String (List (Tensor × Tensor))
  | [] => Except.ok []
  | (p, w) :: rest =>
    if p.shape ≠ w.shape then
      Except.error ("Optimizer weight shape not compatible with provided weight shape")
    else
      match buildTuples rest with
      | Except.error e => Except.error e
      | Except.ok ts => Except.ok ((p, w) :: ts)

/-- `Optimizer.set_weights`: `zip` truncates to the shorter of the two lists;
only after the whole validation loop succeeds does `K.batch_set_value` write
every collected tuple (each variable receives the provided value; its shape
is unchanged since the shapes were checked equal).  Variables beyond the
zipped prefix keep their old values.  An error result models the
`ValueError` raised before any assignment happens: restore is
all-or-nothing. -/
def set_weights (params ws : List Tensor) : Except String (List Tensor) :=
  match buildTuples (params.zip ws) with
  | Except.error e => Except.error e
  | Except.ok tuples =>
    Except.ok ((tuples.map (fun pw => { shape := pw.1.shape, val := pw.2.val })) ++
      params.drop ws.length)

/-- Whether an `Except` result is an error (a raised exception). -/
def isErr {ε α : Type} : Except ε α → Bool
  | Except.error _ => true
  | Except.ok _ => false

/-! ### Adadelta per-parameter numerics (over ℝ) -/

/-- The per-parameter state Adadelta's loop body reads and writes: the
parameter `p`, the accumulator `a` and the delta-accumulator `d_a`. -/
structure AdadeltaVars where
  p : ℝ
  a : ℝ
  d_a : ℝ

/-- One execution of Adadelta's per-parameter loop body (scalar parameter,
no constraint): the new accumulator is computed first, the update term reads
the new accumulator and the old (pre-step) delta-accumulator, the parameter
is updated, and only then is the new delta-accumulator value stored. -/
noncomputable def Adadelta.paramStep (rho epsilon lr g : ℝ) (s : AdadeltaVars) :
    AdadeltaVars :=
  let new_a := rho * s.a + (1 - rho) * g ^ 2
  let update := g * Real.sqrt (s.d_a + epsilon) / Real.sqrt (new_a + epsilon)
  let new_p := s.p - lr * update
  let new_d_a := rho * s.d_a + (1 - rho) * update ^ 2
  { p := new_p, a := new_a, d_a := new_d_a }

/-! ### Helper lemmas -/

lemma countAddIter_nil : countAddIter [] = 0 := rfl

lemma countAddIter_append (a b : List UpdOp) :
    countAddIter (a ++ b) = countAddIter a + countAddIter b :=
  List.countP_append _ _ _

lemma countAddIter_paramOps (emit : ℕ → List UpdOp)
    (h : ∀ i, countAddIter (emit i) = 0) : ∀ n, countAddIter (paramOps emit n) = 0 := by
  intro n
  induction n with
  | zero => rfl
  | succ m ih =>
    have : paramOps emit (m + 1) = paramOps emit m ++ emit m := by
      simp [paramOps, List.range_succ]
    rw [this, countAddIter_append, ih, h m]

lemma countAddIter_skeleton (dOps cOps : List UpdOp) (v : ℚ)
    (emit : ℕ → List UpdOp) (n : ℕ) (h : ∀ i, countAddIter (emit i) = 0) :
    countAddIter (dOps ++ cOps ++ [UpdOp.setCurrentLr v] ++ paramOps emit n) =
      countAddIter dOps + countAddIter cOps := by
  rw [countAddIter_append, countAddIter_append, countAddIter_append,
    countAddIter_paramOps emit h]
  rfl

/-! ### Claim theorems -/

/-- Claim C1, counterexample: for SGD constructed with `decay = 0` and no
CLR configured, one call to `get_updates` emits no
`K.update_add(iterations, 1)` operation at all — the net effect on the step
counter is 0, not the claimed 1. -/
theorem c1_counterexample :
    countAddIter (SGD.get_updates
      { base := { clipnorm := none, clipvalue := none }, iterations := 0,
        lr := 1/100, momentum := 0, decay := 0, initial_decay := 0,
        nesterov := false, clr := none, current_lr := 0 } [1] [1]).1 = 0 := by
  decide

/-- Claim C1, amended: Adam, Adamax and Nadam always emit exactly one counter
increment per `get_updates` call.  SGD, RMSprop, Adagrad and Adadelta emit
one increment from the decay branch when the constructed `initial_decay` is
positive, plus one increment from the CLR branch when CLR is configured and
`initial_decay = 0` — in particular they emit no increment at all when
`decay = 0` and no CLR is configured. -/
theorem c1_amended :
    (∀ (s : SGDState) (params grads : List ℚ),
        countAddIter (SGD.get_updates s params grads).1 =
          (if s.initial_decay > 0 then 1 else 0) +
          (match s.clr with
           | none => 0
           | some _ => if s.initial_decay = 0 then 1 else 0)) ∧
    (∀ (s : RMSpropState) (params grads : List ℚ),
        countAddIter (RMSprop.get_updates s params grads).1 =
          (if s.initial_decay > 0 then 1 else 0) +
          (match s.clr with
           | none => 0
           | some _ => if s.initial_decay = 0 then 1 else 0)) ∧
    (∀ (s : AdagradState) (params grads : List ℚ),
        countAddIter (Adagrad.get_updates s params grads).1 =
          (if s.initial_decay > 0 then 1 else 0) +
          (match s.clr with
           | none => 0
           | some _ => if s.initial_decay = 0 then 1 else 0)) ∧
    (∀ (s : AdadeltaState) (params grads : List ℚ),
        countAddIter (Adadelta.get_updates s params grads).1 =
          (if s.initial_decay > 0 then 1 else 0) +
          (match s.clr with
           | none => 0
           | some _ => if s.initial_decay = 0 then 1 else 0)) ∧
    (∀ (s : AdamState) (params grads : List ℚ),
        countAddIter (Adam.get_updates s params grads).1 = 1) ∧
    (∀ (s : AdamaxState) (params grads : List ℚ),
        countAddIter (Adamax.get_updates s params grads).1 = 1) ∧
    (∀ (s : NadamState) (params grads : List ℚ),
        countAddIter (Nadam.get_updates s params grads).1 = 1) := by
  refine ⟨?_, ?_, ?_, ?_, ?_, ?_, ?_⟩ <;> intro s params grads
  · simp only [SGD.get_updates]
    rw [countAddIter_skeleton _ _ _
      (fun i => [UpdOp.setAccA i, UpdOp.setParam i]) _ (fun i => rfl)]
    cases s.clr <;> split_ifs <;> simp_all [countAddIter]
  · simp only [RMSprop.get_updates]
    rw [countAddIter_skeleton _ _ _
      (fun i => [UpdOp.setAccA i, UpdOp.setParam i]) _ (fun i => rfl)]
    cases s.clr <;> split_ifs <;> simp_all [countAddIter]
  · simp only [Adagrad.get_updates]
    rw [countAddIter_skeleton _ _ _
      (fun i => [UpdOp.setAccA i, UpdOp.setParam i]) _ (fun i => rfl)]
    cases s.clr <;> split_ifs <;> simp_all [countAddIter]
  · simp only [Adadelta.get_updates]
    rw [countAddIter_skeleton _ _ _
      (fun i => [UpdOp.setAccA i, UpdOp.setParam i, UpdOp.setAccB i]) _ (fun i => rfl)]
    cases s.clr <;> split_ifs <;> simp_all [countAddIter]
  · simp only [Adam.get_updates]
    rw [countAddIter_append, countAddIter_append,
      countAddIter_paramOps
        (fun i => [UpdOp.setAccA i, UpdOp.setAccB i, UpdOp.setParam i]) (fun i => rfl)]
    rfl
  · simp only [Adamax.get_updates]
    rw [countAddIter_append, countAddIter_append,
      countAddIter_paramOps
        (fun i => [UpdOp.setAccA i, UpdOp.setAccB i, UpdOp.setParam i]) (fun i => rfl)]
    rfl
  · simp only [Nadam.get_updates]
    rw [countAddIter_append, countAddIter_append, countAddIter_append,
      countAddIter_paramOps
        (fun i => [UpdOp.setAccA i, UpdOp.setAccB i, UpdOp.setParam i]) (fun i => rfl)]
    rfl

lemma checkKwargs_err (ks : List String) (h : ∃ k ∈ ks, k ∉ allowedKwargs) :
    isErr (checkKwargs ks) = true := by
  induction ks with
  | nil => rcases h with ⟨k, hk, _⟩; cases hk
  | cons a l ih =>
    rcases h with ⟨k, hk, hbad⟩
    by_cases ha : a ∈ allowedKwargs
    · rw [checkKwargs, if_pos ha]
      apply ih
      rcases List.mem_cons.mp hk with h1 | h2
      · exact absurd (h1 ▸ ha) hbad
      · exact ⟨k, h2, hbad⟩
    · rw [checkKwargs, if_neg ha]; rfl

lemma Optimizer_init_err (kwargs : List (String × CVal))
    (h : ∃ k ∈ kwargs.map Prod.fst, k ∉ allowedKwargs) :
    isErr (Optimizer.init kwargs) = true := by
  have hc := checkKwargs_err _ h
  unfold Optimizer.init
  cases hck : checkKwargs (kwargs.map Prod.fst) with
  | error e => rfl
  | ok u => rw [hck] at hc; exact absurd hc (by simp [isErr])

lemma init_matcher_err {σ : Type} (kwargs : List (String × CVal)) (f : OptBase → σ)
    (h : ∃ k ∈ kwargs.map Prod.fst, k ∉ allowedKwargs) :
    isErr (match Optimizer.init kwargs with
           | Except.error e => Except.error e
           | Except.ok base => Except.ok (f base)) = true := by
  have hi := Optimizer_init_err kwargs h
  cases hik : Optimizer.init kwargs with
  | error e => rfl
  | ok base => rw [hik] at hi; exact absurd hi (by simp [isErr])

lemma mem_filter_map_fst {p : String × CVal → Bool} {l : List (String × CVal)}
    (kv : String × CVal) (hkv : kv ∈ l) (hp : p kv = true) :
    kv.1 ∈ (l.filter p).map Prod.fst :=
  List.mem_map_of_mem _ (List.mem_filter.mpr ⟨hkv, hp⟩)

/-- Claim C2: the export/import round-trip fails for every optimizer
variant.  Every `get_config` includes the keys `iterations` and
`current_lr`, but `from_config` is `cls(**config)` and no constructor
accepts those keywords, so the base keyword check raises
`TypeError('Unexpected keyword argument passed to optimizer: iterations')`
for every exported configuration. -/
theorem c2_roundtrip_raises :
    (∀ s : SGDState, isErr (SGD.from_config (SGD.get_config s)) = true) ∧
    (∀ s : RMSpropState, isErr (RMSprop.from_config (RMSprop.get_config s)) = true) ∧
    (∀ s : AdagradState, isErr (Adagrad.from_config (Adagrad.get_config s)) = true) ∧
    (∀ s : AdadeltaState, isErr (Adadelta.from_config (Adadelta.get_config s)) = true) ∧
    (∀ s : AdamState, isErr (Adam.from_config (Adam.get_config s)) = true) ∧
    (∀ s : AdamaxState, isErr (Adamax.from_config (Adamax.get_config s)) = true) ∧
    (∀ s : NadamState, isErr (Nadam.from_config (Nadam.get_config s)) = true) := by
  refine ⟨?_, ?_, ?_, ?_, ?_, ?_, ?_⟩ <;> intro s
  · unfold SGD.from_config SGD.init
    apply init_matcher_err
    refine ⟨"iterations", ?_, by decide⟩
    apply mem_filter_map_fst (("iterations" : String), CVal.num (s.iterations : ℚ))
    · simp [SGD.get_config]
    · rfl
  · unfold RMSprop.from_config RMSprop.init
    apply init_matcher_err
    refine ⟨"iterations", ?_, by decide⟩
    apply mem_filter_map_fst (("iterations" : String), CVal.num (s.iterations : ℚ))
    · simp [RMSprop.get_config]
    · rfl
  · unfold Adagrad.from_config Adagrad.init
    apply init_matcher_err
    refine ⟨"iterations", ?_, by decide⟩
    apply mem_filter_map_fst (("iterations" : String), CVal.num (s.iterations : ℚ))
    · simp [Adagrad.get_config]
    · rfl
  · unfold Adadelta.from_config Adadelta.init
    apply init_matcher_err
    refine ⟨"iterations", ?_, by decide⟩
    apply mem_filter_map_fst (("iterations" : String), CVal.num (s.iterations : ℚ))
    · simp [Adadelta.get_config]
    · rfl
  · unfold Adam.from_config Adam.init
    apply init_matcher_err
    refine ⟨"iterations", ?_, by decide⟩
    apply mem_filter_map_fst (("iterations" : String), CVal.num (s.iterations : ℚ))
    · simp [Adam.get_config]
    · rfl
  · unfold Adamax.from_config Adamax.init
    apply init_matcher_err
    refine ⟨"iterations", ?_, by decide⟩
    apply mem_filter_map_fst (("iterations" : String), CVal.num (s.iterations : ℚ))
    · simp [Adamax.get_config]
    · rfl
  · unfold Nadam.from_config Nadam.init
    apply init_matcher_err
    refine ⟨"iterations", ?_, by decide⟩
    apply mem_filter_map_fst (("iterations" : String), CVal.num (s.iterations : ℚ))
    · simp [Nadam.get_config]
    · rfl

/-- Claim C3, counterexample: for RMSprop with one parameter, the weights
list set by `get_updates` is just the accumulator list — its first element
is the first accumulator, not the step counter. -/
theorem c3_counterexample :
    (RMSprop.get_updates
      { base := { clipnorm := none, clipvalue := none }, lr := 1/1000,
        rho := 9/10, epsilon := 1/100000000, decay := 0, initial_decay := 0,
        iterations := 0, clr := none, current_lr := 0 } [1] [1]).2 =
      [WRef.accA 0] ∧ WRef.accA 0 ≠ WRef.iter := by
  decide

/-- Claim C3, amended: SGD, Adam, Adamax and Nadam set `self.weights` to the
step counter followed by all accumulators in variant-defined order, but
RMSprop and Adagrad set it to the accumulator list only, and Adadelta to
`accumulators + delta_accumulators` only — these three variants do not
include the step counter in the weight snapshot. -/
theorem c3_amended :
    (∀ (s : SGDState) (params grads : List ℚ),
        (SGD.get_updates s params grads).2 =
          WRef.iter :: (List.range params.length).map WRef.accA) ∧
    (∀ (s : RMSpropState) (params grads : List ℚ),
        (RMSprop.get_updates s params grads).2 =
          (List.range params.length).map WRef.accA) ∧
    (∀ (s : AdagradState) (params grads : List ℚ),
        (Adagrad.get_updates s params grads).2 =
          (List.range params.length).map WRef.accA) ∧
    (∀ (s : AdadeltaState) (params grads : List ℚ),
        (Adadelta.get_updates s params grads).2 =
          (List.range params.length).map WRef.accA ++
            (List.range params.length).map WRef.accB) ∧
    (∀ (s : AdamState) (params grads : List ℚ),
        (Adam.get_updates s params grads).2 =
          WRef.iter :: ((List.range params.length).map WRef.accA ++
            (List.range params.length).map WRef.accB)) ∧
    (∀ (s : AdamaxState) (params grads : List ℚ),
        (Adamax.get_updates s params grads).2 =
          WRef.iter :: ((List.range params.length).map WRef.accA ++
            (List.range params.length).map WRef.accB)) ∧
    (∀ (s : NadamState) (params grads : List ℚ),
        (Nadam.get_updates s params grads).2 =
          WRef.iter :: ((List.range params.length).map WRef.accA ++
            (List.range params.length).map WRef.accB)) := by
  refine ⟨?_, ?_, ?_, ?_, ?_, ?_, ?_⟩ <;> intro s params grads <;> rfl

/-- Claim C4: with a configured norm threshold `c > 0` and `n` the joint
gradient norm, the global-norm clip leaves every gradient unchanged when
`n < c` (including `n = 0`), and scales every gradient by exactly `c / n`
when `n ≥ c`.  The embedding is a total function: no input raises. -/
theorem c4_norm_clip (grads : List ℝ) (c : ℝ) (hc : 0 < c) :
    (gradNorm grads < c → get_gradients (some c) none grads = grads) ∧
    (c ≤ gradNorm grads →
      get_gradients (some c) none grads =
        grads.map (fun g => g * (c / gradNorm grads))) := by
  have hred : get_gradients (some c) none grads =
      grads.map (fun g => clip_norm g c (gradNorm grads)) := by
    have h0 : get_gradients (some c) none grads =
        if c > 0 then grads.map (fun g => clip_norm g c (gradNorm grads)) else grads := rfl
    rw [h0, if_pos hc]
  constructor
  · intro hn
    rw [hred]
    have hpt : ∀ g ∈ grads, clip_norm g c (gradNorm grads) = id g := by
      intro g _
      unfold clip_norm
      rw [if_pos hc, if_neg (not_le.mpr hn)]
      rfl
    rw [List.map_congr_left hpt, List.map_id]
  · intro hn
    rw [hred]
    have hpt : (fun g => clip_norm g c (gradNorm grads)) =
        fun g => g * (c / gradNorm grads) := by
      funext g
      unfold clip_norm
      rw [if_pos hc, if_pos hn, mul_div_assoc]
    rw [hpt]

lemma gradNorm_34 : gradNorm [3, 4] = 5 := by
  have hm : ([3, 4] : List ℝ).map (fun g => g ^ 2) = [9, 16] := by norm_num
  unfold gradNorm
  rw [hm]
  have hs : ([9, 16] : List ℝ).sum = 25 := by norm_num
  rw [hs, show (25 : ℝ) = 5 ^ 2 by norm_num]
  exact Real.sqrt_sq (by norm_num)

/-- Claim C4, witness: gradients `[3, 4]` have joint norm 5; with threshold
10 they pass through unchanged, with threshold 1 each is scaled by
`1 / 5`. -/
theorem c4_witness :
    get_gradients (some 10) none [3, 4] = [3, 4] ∧
    get_gradients (some 1) none [3, 4] = [3 * (1 / 5), 4 * (1 / 5)] := by
  constructor
  · exact (c4_norm_clip [3, 4] 10 (by norm_num)).1 (by rw [gradNorm_34]; norm_num)
  · have h := (c4_norm_clip [3, 4] 1 (by norm_num)).2 (by rw [gradNorm_34]; norm_num)
    rw [gradNorm_34] at h
    rw [h]
    norm_num

/-- Claim C5: Adadelta's update term at a step reads the delta-accumulator
value stored at the end of the previous step, while the new delta-accumulator
is written only after the parameter write.  First conjunct: in a 1-parameter
2-step run, the second step's parameter update uses the first step's `d_a`
output.  Second conjunct: that output is `rho * d_a + (1 - rho) * update₁²`
computed from the pre-run `d_a`.  Third conjunct: the emitted op order per
parameter is accumulator write, parameter write, then delta-accumulator
write. -/
theorem c5_adadelta_old_delta (rho epsilon lr g1 g2 : ℝ) (s : AdadeltaVars) :
    ((Adadelta.paramStep rho epsilon lr g2 (Adadelta.paramStep rho epsilon lr g1 s)).p =
      (Adadelta.paramStep rho epsilon lr g1 s).p -
        lr * (g2 * Real.sqrt ((Adadelta.paramStep rho epsilon lr g1 s).d_a + epsilon) /
          Real.sqrt (rho * (Adadelta.paramStep rho epsilon lr g1 s).a +
            (1 - rho) * g2 ^ 2 + epsilon))) ∧
    ((Adadelta.paramStep rho epsilon lr g1 s).d_a =
      rho * s.d_a + (1 - rho) *
        (g1 * Real.sqrt (s.d_a + epsilon) /
          Real.sqrt (rho * s.a + (1 - rho) * g1 ^ 2 + epsilon)) ^ 2) ∧
    ((Adadelta.get_updates
      { base := { clipnorm := none, clipvalue := none }, lr := 1, rho := 19/20,
        epsilon := 1/100000000, decay := 0, initial_decay := 0, iterations := 0,
        clr := none, current_lr := 0 } [1] [1]).1 =
      [UpdOp.setCurrentLr 1, UpdOp.setAccA 0, UpdOp.setParam 0, UpdOp.setAccB 0]) := by
  refine ⟨rfl, rfl, by decide⟩

lemma buildTuples_ok (l : List (Tensor × Tensor))
    (h : ∀ pw ∈ l, pw.1.shape = pw.2.shape) : buildTuples l = Except.ok l := by
  induction l with
  | nil => rfl
  | cons a rest ih =>
    obtain ⟨p, w⟩ := a
    have hpw : p.shape = w.shape := h (p, w) (List.mem_cons_self _ _)
    simp only [buildTuples]
    rw [if_neg (fun hne => hne hpw),
      ih (fun pw hpw2 => h pw (List.mem_cons_of_mem _ hpw2))]

lemma buildTuples_err (l : List (Tensor × Tensor))
    (h : ∃ pw ∈ l, pw.1.shape ≠ pw.2.shape) : isErr (buildTuples l) = true := by
  induction l with
  | nil => rcases h with ⟨pw, hm, _⟩; cases hm
  | cons a rest ih =>
    obtain ⟨p, w⟩ := a
    by_cases hsh : p.shape ≠ w.shape
    · simp only [buildTuples]
      rw [if_pos hsh]
      rfl
    · simp only [buildTuples]
      rw [if_neg hsh]
      have hrest : ∃ pw ∈ rest, pw.1.shape ≠ pw.2.shape := by
        rcases h with ⟨pw, hm, hne⟩
        rcases List.mem_cons.mp hm with h1 | h2
        · rw [h1] at hne
          exact absurd hne hsh
        · exact ⟨pw, h2, hne⟩
      have hi := ih hrest
      cases hb : buildTuples rest with
      | error e => rfl
      | ok ts => rw [hb] at hi; exact absurd hi (by simp [isErr])

lemma assigned_eq (params ws : List Tensor) (hlen : ws.length ≤ params.length)
    (h : ∀ pw ∈ params.zip ws, pw.1.shape = pw.2.shape) :
    (params.zip ws).map
      (fun pw => ({ shape := pw.1.shape, val := pw.2.val } : Tensor)) = ws := by
  have h1 : (params.zip ws).map
      (fun pw => ({ shape := pw.1.shape, val := pw.2.val } : Tensor)) =
      (params.zip ws).map Prod.snd :=
    List.map_congr_left (fun pw hpw => by rw [h pw hpw])
  rw [h1, List.map_snd_zip params ws hlen]

/-- Claim C6: `set_weights` raises `ValueError` when some provided value's
shape differs from the corresponding state tensor's shape, and the error
occurs before any assignment (the `Except.error` result carries no new
state: restore is all-or-nothing); when every corresponding shape matches,
every provided value is assigned and the resulting state equals the provided
list. -/
theorem c6_restore (params ws : List Tensor) (hlen : ws.length = params.length) :
    ((∃ pw ∈ params.zip ws, pw.1.shape ≠ pw.2.shape) →
      ∃ e, set_weights params ws = Except.error e) ∧
    ((∀ pw ∈ params.zip ws, pw.1.shape = pw.2.shape) →
      set_weights params ws = Except.ok ws) := by
  constructor
  · intro h
    have hbt := buildTuples_err _ h
    unfold set_weights
    cases hb : buildTuples (params.zip ws) with
    | error e => exact ⟨e, rfl⟩
    | ok ts => rw [hb] at hbt; exact absurd hbt (by simp [isErr])
  · intro h
    unfold set_weights
    rw [buildTuples_ok _ h]
    have hdrop : params.drop ws.length = [] := by
      rw [hlen]
      exact List.drop_length params
    show Except.ok ((params.zip ws).map
      (fun pw => ({ shape := pw.1.shape, val := pw.2.val } : Tensor)) ++
        params.drop ws.length) = Except.ok ws
    rw [assigned_eq params ws (le_of_eq hlen) h, hdrop, List.append_nil]

/-- Claim C6, witness: a mismatched shape `[3]` against a live tensor of
shape `[2]` raises; a matching restore assigns the provided value. -/
theorem c6_witness :
    (∃ e, set_weights [{ shape := [2], val := 1 }] [{ shape := [3], val := 5 }] =
      Except.error e) ∧
    set_weights [{ shape := [2], val := 1 }] [{ shape := [2], val := 5 }] =
      Except.ok [{ shape := [2], val := 5 }] :=
  ⟨(c6_restore [{ shape := [2], val := 1 }] [{ shape := [3], val := 5 }] rfl).1
      (by decide),
    (c6_restore [{ shape := [2], val := 1 }] [{ shape := [2], val := 5 }] rfl).2
      (by decide)⟩

/-- Claim C9: calling `set_weights` with fewer arrays than the optimizer has
weights raises no error — `zip` truncates, so only the leading prefix is
validated and assigned, and the remaining weights keep their old values. -/
theorem c9_prefix_restore (params ws : List Tensor)
    (hlen : ws.length ≤ params.length)
    (hsh : ∀ pw ∈ params.zip ws, pw.1.shape = pw.2.shape) :
    set_weights params ws = Except.ok (ws ++ params.drop ws.length) := by
  unfold set_weights
  rw [buildTuples_ok _ hsh]
  show Except.ok ((params.zip ws).map
    (fun pw => ({ shape := pw.1.shape, val := pw.2.val } : Tensor)) ++
      params.drop ws.length) = Except.ok (ws ++ params.drop ws.length)
  rw [assigned_eq params ws hlen hsh]

/-- Claim C9, witness: restoring one array into an optimizer with two
weights assigns the first and silently leaves the second unchanged. -/
theorem c9_witness :
    set_weights [{ shape := [2], val := 1 }, { shape := [3], val := 2 }]
      [{ shape := [2], val := 9 }] =
    Except.ok [{ shape := [2], val := 9 }, { shape := [3], val := 2 }] :=
  c9_prefix_restore [{ shape := [2], val := 1 }, { shape := [3], val := 2 }]
    [{ shape := [2], val := 9 }] (by decide) (by decide)

/-- Claim C7: in `triangular` mode at counter value 0 the cycle is 1, the
position `x` is 1, the amplitude factor `max(0, 1 - x)` is 0, and the CLR
computation returns exactly the base rate. -/
theorem c7_triangular_zero (lr max_lr ss gamma : ℚ) (hss : 0 < ss) :
    (⌊1 + ((0 : ℕ) : ℚ) / (2 * ss)⌋ = (1 : ℤ)) ∧
    (|((0 : ℕ) : ℚ) / ss - 2 * ((1 : ℤ) : ℚ) + 1| = 1) ∧
    (max (0 : ℚ) (1 - |((0 : ℕ) : ℚ) / ss - 2 * ((1 : ℤ) : ℚ) + 1|) = 0) ∧
    clrAdjust { mode := "triangular", step_size := ss, max_lr := max_lr,
                gamma := gamma } 0 lr = lr := by
  have hfl : ⌊1 + ((0 : ℕ) : ℚ) / (2 * ss)⌋ = (1 : ℤ) := by norm_num
  have hx : |((0 : ℕ) : ℚ) / ss - 2 * ((1 : ℤ) : ℚ) + 1| = 1 := by norm_num
  refine ⟨hfl, hx, ?_, ?_⟩
  · rw [hx]
    norm_num
  · simp only [clrAdjust]
    norm_num

/-- Claim C7, witness: `base_lr = 1/100`, `max_lr = 6/100`,
`step_size = 2`. -/
theorem c7_witness :
    clrAdjust { mode := "triangular", step_size := 2, max_lr := 6/100,
                gamma := 1 } 0 (1/100) = 1/100 :=
  (c7_triangular_zero (1/100) (6/100) 2 1 (by norm_num)).2.2.2

/-- Claim C8: constructing any variant with a keyword argument outside the
recognized set raises `TypeError` inside the base keyword check, which runs
before any optimizer state variable is created (the `Except.error` result
carries no state).  No keyword check exists in any `get_updates`, whose
embedding is a total function: the error cannot occur at step time. -/
theorem c8_bad_kwarg_raises :
    (∀ (lr momentum decay : ℚ) (nesterov : Bool) (clr : Option CLRState)
        (kwargs : List (String × CVal)),
        (∃ k ∈ kwargs.map Prod.fst, k ∉ allowedKwargs) →
        isErr (SGD.init lr momentum decay nesterov clr kwargs) = true) ∧
    (∀ (lr rho epsilon decay : ℚ) (clr : Option CLRState)
        (kwargs : List (String × CVal)),
        (∃ k ∈ kwargs.map Prod.fst, k ∉ allowedKwargs) →
        isErr (RMSprop.init lr rho epsilon decay clr kwargs) = true) ∧
    (∀ (lr epsilon decay : ℚ) (clr : Option CLRState)
        (kwargs : List (String × CVal)),
        (∃ k ∈ kwargs.map Prod.fst, k ∉ allowedKwargs) →
        isErr (Adagrad.init lr epsilon decay clr kwargs) = true) ∧
    (∀ (lr rho epsilon decay : ℚ) (clr : Option CLRState)
        (kwargs : List (String × CVal)),
        (∃ k ∈ kwargs.map Prod.fst, k ∉ allowedKwargs) →
        isErr (Adadelta.init lr rho epsilon decay clr kwargs) = true) ∧
    (∀ (lr beta_1 beta_2 epsilon decay : ℚ) (clr : Option CLRState)
        (kwargs : List (String × CVal)),
        (∃ k ∈ kwargs.map Prod.fst, k ∉ allowedKwargs) →
        isErr (Adam.init lr beta_1 beta_2 epsilon decay clr kwargs) = true) ∧
    (∀ (lr beta_1 beta_2 epsilon decay : ℚ) (clr : Option CLRState)
        (kwargs : List (String × CVal)),
        (∃ k ∈ kwargs.map Prod.fst, k ∉ allowedKwargs) →
        isErr (Adamax.init lr beta_1 beta_2 epsilon decay clr kwargs) = true) ∧
    (∀ (lr beta_1 beta_2 epsilon schedule_decay : ℚ) (clr : Option CLRState)
        (kwargs : List (String × CVal)),
        (∃ k ∈ kwargs.map Prod.fst, k ∉ allowedKwargs) →
        isErr (Nadam.init lr beta_1 beta_2 epsilon schedule_decay clr kwargs) = true) := by
  refine ⟨?_, ?_, ?_, ?_, ?_, ?_, ?_⟩
  · intro lr momentum decay nesterov clr kwargs h
    unfold SGD.init
    exact init_matcher_err kwargs _ h
  · intro lr rho epsilon decay clr kwargs h
    unfold RMSprop.init
    exact init_matcher_err kwargs _ h
  · intro lr epsilon decay clr kwargs h
    unfold Adagrad.init
    exact init_matcher_err kwargs _ h
  · intro lr rho epsilon decay clr kwargs h
    unfold Adadelta.init
    exact init_matcher_err kwargs _ h
  · intro lr beta_1 beta_2 epsilon decay clr kwargs h
    unfold Adam.init
    exact init_matcher_err kwargs _ h
  · intro lr beta_1 beta_2 epsilon decay clr kwargs h
    unfold Adamax.init
    exact init_matcher_err kwargs _ h
  · intro lr beta_1 beta_2 epsilon schedule_decay clr kwargs h
    unfold Nadam.init
    exact init_matcher_err kwargs _ h

/-- Claim C8, witness: the unrecognized keyword `foo` makes every variant's
constructor raise. -/
theorem c8_witness :
    isErr (SGD.init (1/100) 0 0 false none
      [(("foo" : String), CVal.num 1)]) = true ∧
    isErr (RMSprop.init (1/1000) (9/10) (1/100000000) 0 none
      [(("foo" : String), CVal.num 1)]) = true ∧
    isErr (Adagrad.init (1/100) (1/100000000) 0 none
      [(("foo" : String), CVal.num 1)]) = true ∧
    isErr (Adadelta.init 1 (19/20) (1/100000000) 0 none
      [(("foo" : String), CVal.num 1)]) = true ∧
    isErr (Adam.init (1/1000) (9/10) (999/1000) (1/100000000) 0 none
      [(("foo" : String), CVal.num 1)]) = true ∧
    isErr (Adamax.init (1/500) (9/10) (999/1000) (1/100000000) 0 none
      [(("foo" : String), CVal.num 1)]) = true ∧
    isErr (Nadam.init (1/500) (9/10) (999/1000) (1/100000000) (1/250) none
      [(("foo" : String), CVal.num 1)]) = true :=
  ⟨c8_bad_kwarg_raises.1 (1/100) 0 0 false none _ (by decide),
   c8_bad_kwarg_raises.2.1 (1/1000) (9/10) (1/100000000) 0 none _ (by decide),
   c8_bad_kwarg_raises.2.2.1 (1/100) (1/100000000) 0 none _ (by decide),
   c8_bad_kwarg_raises.2.2.2.1 1 (19/20) (1/100000000) 0 none _ (by decide),
   c8_bad_kwarg_raises.2.2.2.2.1 (1/1000) (9/10) (999/1000) (1/100000000) 0 none _
     (by decide),
   c8_bad_kwarg_raises.2.2.2.2.2.1 (1/500) (9/10) (999/1000) (1/100000000) 0 none _
     (by decide),
   c8_bad_kwarg_raises.2.2.2.2.2.2 (1/500) (9/10) (999/1000) (1/100000000) (1/250)
     none _ (by decide)⟩

/-- Claim C10: for the six variants with a decay option (all but Nadam),
whether decay scales the rate during a step depends only on the
construction-time `initial_decay` value, while the factor itself, when
applied, reads the live `decay` variable — the state here can have any
combination of `decay` and `initial_decay`, modelling post-construction
mutation of `decay`. -/
theorem c10_decay_branch :
    (∀ (s : SGDState) (params grads : List ℚ), s.clr = none →
        currentLrOf (SGD.get_updates s params grads).1 =
          some (if s.initial_decay > 0 then
            s.lr * (1 / (1 + s.decay * (s.iterations : ℚ))) else s.lr)) ∧
    (∀ (s : RMSpropState) (params grads : List ℚ), s.clr = none →
        currentLrOf (RMSprop.get_updates s params grads).1 =
          some (if s.initial_decay > 0 then
            s.lr * (1 / (1 + s.decay * (s.iterations : ℚ))) else s.lr)) ∧
    (∀ (s : AdagradState) (params grads : List ℚ), s.clr = none →
        currentLrOf (Adagrad.get_updates s params grads).1 =
          some (if s.initial_decay > 0 then
            s.lr * (1 / (1 + s.decay * (s.iterations : ℚ))) else s.lr)) ∧
    (∀ (s : AdadeltaState) (params grads : List ℚ), s.clr = none →
        currentLrOf (Adadelta.get_updates s params grads).1 =
          some (if s.initial_decay > 0 then
            s.lr * (1 / (1 + s.decay * (s.iterations : ℚ))) else s.lr)) ∧
    (∀ (s : AdamState) (params grads : List ℚ), s.clr = none →
        currentLrOf (Adam.get_updates s params grads).1 =
          some (if s.initial_decay > 0 then
            s.lr * (1 / (1 + s.decay * (s.iterations : ℚ))) else s.lr)) ∧
    (∀ (s : AdamaxState) (params grads : List ℚ), s.clr = none →
        currentLrOf (Adamax.get_updates s params grads).1 =
          some (if s.initial_decay > 0 then
            s.lr * (1 / (1 + s.decay * (s.iterations : ℚ))) else s.lr)) := by
  refine ⟨?_, ?_, ?_, ?_, ?_, ?_⟩ <;> intro s params grads hclr
  · simp only [SGD.get_updates, hclr]
    split_ifs <;> rfl
  · simp only [RMSprop.get_updates, hclr]
    split_ifs <;> rfl
  · simp only [Adagrad.get_updates, hclr]
    split_ifs <;> rfl
  · simp only [Adadelta.get_updates, hclr]
    split_ifs <;> rfl
  · simp only [Adam.get_updates, hclr]
    split_ifs <;> rfl
  · simp only [Adamax.get_updates, hclr]
    split_ifs <;> rfl

/-- Claim C10, witness: with `initial_decay = 0` but a live `decay` mutated
to 5, SGD still computes `current_lr = lr`; with `initial_decay = 2` but a
live `decay` mutated to 3 and counter 1, it computes
`lr * (1 / (1 + 3 * 1)) = lr / 4` from the live value.  The other variants
behave identically at one representative state each. -/
theorem c10_witness :
    currentLrOf ((SGD.get_updates
      { base := { clipnorm := none, clipvalue := none }, iterations := 0,
        lr := 1/10, momentum := 0, decay := 5, initial_decay := 0,
        nesterov := false, clr := none, current_lr := 0 } [1] [1]).1) =
      some (1/10) ∧
    currentLrOf ((SGD.get_updates
      { base := { clipnorm := none, clipvalue := none }, iterations := 1,
        lr := 1/10, momentum := 0, decay := 3, initial_decay := 2,
        nesterov := false, clr := none, current_lr := 0 } [1] [1]).1) =
      some (1/40) ∧
    currentLrOf ((RMSprop.get_updates
      { base := { clipnorm := none, clipvalue := none }, lr := 1/10,
        rho := 9/10, epsilon := 1/100000000, decay := 5, initial_decay := 0,
        iterations := 0, clr := none, current_lr := 0 } [1] [1]).1) =
      some (1/10) ∧
    currentLrOf ((Adagrad.get_updates
      { base := { clipnorm := none, clipvalue := none }, lr := 1/10,
        epsilon := 1/100000000, decay := 5, initial_decay := 0,
        iterations := 0, clr := none, current_lr := 0 } [1] [1]).1) =
      some (1/10) ∧
    currentLrOf ((Adadelta.get_updates
      { base := { clipnorm := none, clipvalue := none }, lr := 1/10,
        rho := 19/20, epsilon := 1/100000000, decay := 5, initial_decay := 0,
        iterations := 0, clr := none, current_lr := 0 } [1] [1]).1) =
      some (1/10) ∧
    currentLrOf ((Adam.get_updates
      { base := { clipnorm := none, clipvalue := none }, iterations := 0,
        lr := 1/10, beta_1 := 9/10, beta_2 := 999/1000,
        epsilon := 1/100000000, decay := 5, initial_decay := 0, clr := none,
        current_lr := 0 } [1] [1]).1) = some (1/10) ∧
    currentLrOf ((Adamax.get_updates
      { base := { clipnorm := none, clipvalue := none }, iterations := 0,
        lr := 1/10, beta_1 := 9/10, beta_2 := 999/1000,
        epsilon := 1/100000000, decay := 5, initial_decay := 0, clr := none,
        current_lr := 0 } [1] [1]).1) = some (1/10) :=
  ⟨(c10_decay_branch.1 _ [1] [1] rfl).trans (by norm_num),
   (c10_decay_branch.1 _ [1] [1] rfl).trans (by norm_num),
   (c10_decay_branch.2.1 _ [1] [1] rfl).trans (by norm_num),
   (c10_decay_branch.2.2.1 _ [1] [1] rfl).trans (by norm_num),
   (c10_decay_branch.2.2.2.1 _ [1] [1] rfl).trans (by norm_num),
   (c10_decay_branch.2.2.2.2.1 _ [1] [1] rfl).trans (by norm_num),
   (c10_decay_branch.2.2.2.2.2 _ [1] [1] rfl).trans (by norm_num)⟩

end CLR
